import Mathlib

/-!
Verification of the Mary Poppins media-safety core against its source.

The definitions below are a shallow embedding of the Python services in
`backend/services/hashing/service.py`, `backend/services/ai-classifier/ensemble.py`,
`backend/services/ai-classifier/model_registry.py` and
`backend/services/ai-classifier/service.py`.  Scores and latencies are modelled
as exact rationals; external collaborators (inference sessions, the hash-index
database, image preprocessing) are modelled as explicit outcome parameters, and
Python exceptions become `Except` results.
-/

set_option maxHeartbeats 1000000

namespace MaryPoppins

deriving instance DecidableEq for Except

/- ──────────────────────────────────────────────────────────────────────
   Perceptual hashing service (backend/services/hashing/service.py)
   ────────────────────────────────────────────────────────────────────── -/

/-- `bin(n).count("1")`: the number of `'1'` digits in the binary rendering of
a natural number. -/
def countSetBits (n : Nat) : Nat := (Nat.toDigits 2 n).count '1'

/-- Value of a single hexadecimal digit, as accepted by Python `int(_, 16)`. -/
def hexDigitVal (c : Char) : Option Nat :=
  if '0' ≤ c ∧ c ≤ '9' then some (c.toNat - '0'.toNat)
  else if 'a' ≤ c ∧ c ≤ 'f' then some (c.toNat - 'a'.toNat + 10)
  else if 'A' ≤ c ∧ c ≤ 'F' then some (c.toNat - 'A'.toNat + 10)
  else none

/-- Python `int(s, 16)` on a plain hex-digit string: `none` models the
`ValueError` raised on an empty or non-hexadecimal string. -/
def parseHex (s : String) : Option Nat :=
  if s.isEmpty then none
  else s.data.foldl (fun acc c => do
    let a ← acc
    let d ← hexDigitVal c
    pure (a * 16 + d)) (some 0)

/-- `PerceptualHashService.hamming_distance_hex`: length check on the hex
strings, then popcount of the XOR of the parsed values.  `Except.error`
models the raised `ValueError`. -/
def hamming_distance_hex (hash1 hash2 : String) : Except String Nat :=
  if hash1.length ≠ hash2.length then .error "Hash lengths must match"
  else
    match parseHex hash1, parseHex hash2 with
    | some val1, some val2 => .ok (countSetBits (val1 ^^^ val2))
    | _, _ => .error "invalid literal for int with base 16"

/-- `PerceptualHashService.hamming_distance_bytes`: length check, then the sum
over zipped byte pairs of the popcount of their XOR. -/
def hamming_distance_bytes (hash1 hash2 : List Nat) : Except String Nat :=
  if hash1.length ≠ hash2.length then .error "Hash lengths must match"
  else .ok (((hash1.zip hash2).map (fun p => countSetBits (p.1 ^^^ p.2))).sum)

/-- The per-algorithm feature flags consumed by `compute_all_hashes`. -/
structure HashSettings where
  enable_phash : Bool
  enable_pdq : Bool
  enable_photodna : Bool
deriving DecidableEq

/-- Outcome of each hash algorithm's computation: `Except.error e` models the
exception caught by the corresponding `try` block.  PDQ yields a hex hash and
a quality score; PhotoDNA yields raw bytes. -/
structure HashOutcomes where
  phash : Except String String
  pdq : Except String (String × Int)
  photodna : Except String (List Nat)

/-- The `HashResult` dataclass (the `computed_at` timestamp is omitted:
no behaviour depends on it). -/
structure HashResult where
  sha256 : String
  phash : Option String := none
  pdq_hash : Option String := none
  pdq_quality : Option Int := none
  photodna_hash : Option (List Nat) := none
  errors : List String := []
deriving DecidableEq

/-- `PerceptualHashService.compute_all_hashes`: each enabled algorithm is
attempted in turn; a failure appends a tagged error string and leaves the
field absent; PhotoDNA additionally requires the client collaborator
(`hasPhotodnaClient`). -/
def compute_all_hashes (s : HashSettings) (hasPhotodnaClient : Bool)
    (o : HashOutcomes) (sha256 : String) : HashResult :=
  let r0 : HashResult := { sha256 := sha256 }
  let r1 :=
    if s.enable_phash then
      match o.phash with
      | .ok v => { r0 with phash := some v }
      | .error e => { r0 with errors := r0.errors ++ ["phash: " ++ e] }
    else r0
  let r2 :=
    if s.enable_pdq then
      match o.pdq with
      | .ok hq => { r1 with pdq_hash := some hq.1, pdq_quality := some hq.2 }
      | .error e => { r1 with errors := r1.errors ++ ["pdq: " ++ e] }
    else r1
  if s.enable_photodna && hasPhotodnaClient then
    match o.photodna with
    | .ok v => { r2 with photodna_hash := some v }
    | .error e => { r2 with errors := r2.errors ++ ["photodna: " ++ e] }
  else r2

/-- One record returned by the abstract hash-index collaborator
(`search_phash` / `search_pdq` / `search_photodna`): the optional
`confidence` key is only read for PhotoDNA matches. -/
structure DbMatch where
  distance : Nat
  database : String
  classification : String
  confidence : Option ℚ
deriving DecidableEq

/-- The `SimilarityMatch` dataclass. -/
structure SimilarityMatch where
  sha256 : String
  hash_type : String
  distance : Nat
  matched_database : String
  classification : String
  confidence : ℚ
deriving DecidableEq

/-- The pHash block of `search_known_databases` (guarded by Python truthiness
of the optional `phash` string). -/
def phashMatches (hr : HashResult) (ms : List DbMatch) : List SimilarityMatch :=
  match hr.phash with
  | some h =>
    if h.isEmpty then []
    else ms.map (fun m =>
      { sha256 := hr.sha256, hash_type := "phash", distance := m.distance,
        matched_database := m.database, classification := m.classification,
        confidence := 1 - (m.distance : ℚ) / 64 })
  | none => []

/-- The PDQ block of `search_known_databases`. -/
def pdqMatches (hr : HashResult) (ms : List DbMatch) : List SimilarityMatch :=
  match hr.pdq_hash with
  | some h =>
    if h.isEmpty then []
    else ms.map (fun m =>
      { sha256 := hr.sha256, hash_type := "pdq", distance := m.distance,
        matched_database := m.database, classification := m.classification,
        confidence := 1 - (m.distance : ℚ) / 256 })
  | none => []

/-- The PhotoDNA block of `search_known_databases`: confidence is
`m.get("confidence", 0.9)`. -/
def photodnaMatches (hr : HashResult) (ms : List DbMatch) : List SimilarityMatch :=
  match hr.photodna_hash with
  | some h =>
    if h.isEmpty then []
    else ms.map (fun m =>
      { sha256 := hr.sha256, hash_type := "photodna", distance := m.distance,
        matched_database := m.database, classification := m.classification,
        confidence := m.confidence.getD (9/10) })
  | none => []

/-- `PerceptualHashService.search_known_databases`: the collaborator responses
for each populated hash field are supplied as explicit parameters. -/
def search_known_databases (hr : HashResult)
    (phash_db pdq_db photodna_db : List DbMatch) : List SimilarityMatch :=
  phashMatches hr phash_db ++ pdqMatches hr pdq_db ++ photodnaMatches hr photodna_db

/- ──────────────────────────────────────────────────────────────────────
   Model registry (backend/services/ai-classifier/model_registry.py)
   ────────────────────────────────────────────────────────────────────── -/

/-- The `ModelDescriptor` dataclass; `last_inference` timestamps are abstract
naturals supplied by the caller. -/
structure ModelDescriptor where
  model_id : String
  name : String
  version : String
  model_type : String
  task : String
  input_size : Nat × Nat
  preprocessing : String
  categories : List String
  weight : ℚ
  enabled : Bool
  model_path : String
  source_url : String
  license : String
  loaded : Bool := false
  total_inferences : Nat := 0
  avg_latency_ms : ℚ := 0
  last_inference : Option Nat := none
deriving DecidableEq

/-- State of a `ModelRegistry`: the id → descriptor mapping and the set of
ids holding a loaded inference session. -/
structure RegistryState where
  models : List (String × ModelDescriptor)
  sessions : List String
deriving DecidableEq

/-- Replace the value stored under `k` in an association list (the dict
assignment `self._models[k] = v` for an existing key). -/
def updateAssoc {α : Type} (l : List (String × α)) (k : String) (v : α) :
    List (String × α) :=
  l.map (fun p => if p.1 = k then (k, v) else p)

/-- `ModelRegistry.predict`.  The inference session's behaviour is abstracted
by `runResult` (the output vector `output[0][0]`, or the raised exception) and
by the measured `elapsed` latency in milliseconds; `now` stands for
`datetime.utcnow()`.  A successful call returns the output together with the
updated registry state; every exception path returns `Except.error`, leaving
the caller's state untouched. -/
def predict (st : RegistryState) (model_id : String)
    (runResult : Except String (List ℚ)) (elapsed : ℚ) (now : Nat) :
    Except String (List ℚ × RegistryState) :=
  if ¬ st.sessions.contains model_id then
    .error ("Model " ++ model_id ++ " is not loaded")
  else
    match st.models.lookup model_id with
    | none => .error ("KeyError: " ++ model_id)
    | some descriptor =>
      if descriptor.model_type = "onnx" then
        match runResult with
        | .error e => .error e
        | .ok result =>
          let n : Nat := descriptor.total_inferences + 1
          let descriptor' :=
            { descriptor with
                total_inferences := n,
                avg_latency_ms :=
                  (descriptor.avg_latency_ms * ((n : ℚ) - 1) + elapsed) / (n : ℚ),
                last_inference := some now }
          .ok (result, { st with models := updateAssoc st.models model_id descriptor' })
      else .error ("Unsupported model type: " ++ descriptor.model_type)

/-- `ModelRegistry.get_models_for_task`: enabled models whose task tag
matches. -/
def get_models_for_task (models : List (String × ModelDescriptor)) (task : String) :
    List ModelDescriptor :=
  (models.map Prod.snd).filter (fun m => m.task = task ∧ m.enabled)

/-- The two shapes of dict returned by `ModelRegistry.health_check`. -/
inductive HealthStatus where
  | unknown (model_id : String)
  | healthy (model_id : String) (name : String) (loaded enabled : Bool)
      (total_inferences : Nat) (avg_latency_ms : ℚ)
deriving DecidableEq

/-- Round half to even (Python 3 `round` on an exact value). -/
def roundHalfEven (q : ℚ) : ℤ :=
  if q - ⌊q⌋ = 1/2 then (if ⌊q⌋ % 2 = 0 then ⌊q⌋ else ⌊q⌋ + 1) else round q

/-- Python `round(q, 1)`. -/
def pyRound1 (q : ℚ) : ℚ := (roundHalfEven (q * 10) : ℚ) / 10

/-- `ModelRegistry.health_check`: an unregistered id yields the
`{"model_id": id, "status": "unknown"}` record; a registered id yields the
full status record with the latency rounded to one decimal place. -/
def health_check (models : List (String × ModelDescriptor)) (model_id : String) :
    HealthStatus :=
  match models.lookup model_id with
  | none => .unknown model_id
  | some d =>
    .healthy model_id d.name d.loaded d.enabled d.total_inferences
      (pyRound1 d.avg_latency_ms)

/- ──────────────────────────────────────────────────────────────────────
   Ensemble classifier (backend/services/ai-classifier/ensemble.py)
   ────────────────────────────────────────────────────────────────────── -/

/-- `CANONICAL_NSFW_CATEGORIES`. -/
def CANONICAL_NSFW_CATEGORIES : List String :=
  ["explicit_sexual", "suggestive", "violence_graphic",
   "violence_mild", "drugs", "safe"]

/-- `CATEGORY_MAPPINGS`: model-specific categories → canonical categories
with weights. -/
def CATEGORY_MAPPINGS : List (String × List (String × List (String × ℚ))) :=
  [("yahoo_open_nsfw",
    [("nsfw", [("explicit_sexual", 7/10), ("suggestive", 3/10)]),
     ("sfw", [("safe", 1)])]),
   ("nudenet_v3",
    [("female_genitalia_exposed", [("explicit_sexual", 1)]),
     ("male_genitalia_exposed", [("explicit_sexual", 1)]),
     ("female_genitalia_covered", [("suggestive", 8/10)]),
     ("buttocks_exposed", [("explicit_sexual", 8/10), ("suggestive", 2/10)]),
     ("female_breast_exposed", [("explicit_sexual", 9/10), ("suggestive", 1/10)]),
     ("female_breast_covered", [("suggestive", 1)]),
     ("anus_exposed", [("explicit_sexual", 1)]),
     ("belly_exposed", [("suggestive", 5/10), ("safe", 5/10)]),
     ("feet_exposed", [("safe", 1)]),
     ("armpits_exposed", [("safe", 1)]),
     ("face_male", [("safe", 1)]),
     ("face_female", [("safe", 1)]),
     ("safe", [("safe", 1)])]),
   ("clip_safety",
    [("unsafe", [("explicit_sexual", 4/10), ("suggestive", 3/10), ("violence_graphic", 3/10)]),
     ("safe", [("safe", 1)])])]

/-- Dict lookup with default: `scores.get(cat, 0.0)` on an association list
with unique keys. -/
def getScore (scores : List (String × ℚ)) (cat : String) : ℚ :=
  (scores.lookup cat).getD 0

/-- `EnsembleClassifier._normalize_scores`: map model-specific scores onto the
canonical taxonomy; each target slot takes the maximum contribution; models
without a mapping entry pass their raw scores through. -/
def normalize_scores (model_id : String) (raw_scores : List (String × ℚ)) :
    List (String × ℚ) :=
  match CATEGORY_MAPPINGS.lookup model_id with
  | none => raw_scores
  | some mapping =>
    let init := CANONICAL_NSFW_CATEGORIES.map (fun c => (c, (0 : ℚ)))
    raw_scores.foldl (fun normalized cs =>
      ((mapping.lookup cs.1).getD []).foldl (fun nm tw =>
        if (nm.lookup tw.1).isSome then
          updateAssoc nm tw.1 (max ((nm.lookup tw.1).getD 0) (cs.2 * tw.2))
        else nm) normalized) init

/-- One entry of the `model_results` list built by `classify_ensemble`. -/
structure ModelResult where
  model_id : String
  model_name : String
  version : String
  weight : ℚ
  raw_scores : List (String × ℚ)
  normalized_scores : List (String × ℚ)
deriving DecidableEq

/-- The union of categories appearing in any model's normalized output
(`all_categories` in `_weighted_average`; a Python set, here in first-seen
order). -/
def all_categories (rs : List ModelResult) : List String :=
  (rs.foldl (fun acc r => acc ++ r.normalized_scores.map Prod.fst) []).dedup

/-- `total_weight = sum(r["weight"] for r in model_results)`. -/
def total_weight (rs : List ModelResult) : ℚ := (rs.map (·.weight)).sum

/-- The numerator of `_weighted_average` for one category:
`sum(r["normalized_scores"].get(category, 0.0) * r["weight"])`. -/
def weighted_sum (rs : List ModelResult) (cat : String) : ℚ :=
  (rs.map (fun r => getScore r.normalized_scores cat * r.weight)).sum

/-- `EnsembleClassifier._weighted_average` as an association list over the
category union. -/
def weighted_average (rs : List ModelResult) : List (String × ℚ) :=
  (all_categories rs).map (fun cat =>
    (cat, if total_weight rs > 0 then weighted_sum rs cat / total_weight rs else 0))

/-- `max(scores, key=scores.get)`: the first key of maximal value, `none` on
an empty dict. -/
def top_category : List (String × ℚ) → Option String
  | [] => none
  | cv :: rest => some (rest.foldl (fun best p => if p.2 > best.2 then p else best) cv).1

/-- `max(scores.values()) if scores else 0.0`. -/
def max_of_values (scores : List (String × ℚ)) : ℚ :=
  match scores.map Prod.snd with
  | [] => 0
  | v :: vs => vs.foldl max v

/-- `EnsembleClassifier._majority_vote`: one vote per model's top category,
scores are votes / number of model results. -/
def majority_vote (rs : List ModelResult) : List (String × ℚ) :=
  let tops := rs.filterMap (fun r => top_category r.normalized_scores)
  tops.dedup.map (fun c => (c, (tops.count c : ℚ) / (rs.length : ℚ)))

/-- `EnsembleClassifier._max_confidence`: the normalized vector of the single
model whose top normalized score is largest (strictly improving over a best
confidence that starts at -1). -/
def max_confidence (rs : List ModelResult) : List (String × ℚ) :=
  let best := rs.foldl (fun acc r =>
    let m := max_of_values r.normalized_scores
    if m > acc.2 then (some r, m) else acc) ((none : Option ModelResult), (-1 : ℚ))
  match best.1 with
  | some r => r.normalized_scores
  | none => []

/-- `np.std` of a list of rational scores, as a real number. -/
noncomputable def npStd (l : List ℚ) : ℝ :=
  let n : ℝ := l.length
  let mean : ℝ := ((l.map (fun x => (x : ℝ))).sum) / n
  Real.sqrt (((l.map (fun x => ((x : ℝ) - mean) ^ 2)).sum) / n)

/-- `EnsembleClassifier._compute_agreement`. -/
noncomputable def compute_agreement (rs : List ModelResult) : ℝ :=
  if rs.length ≤ 1 then 1
  else
    let tops := rs.filterMap (fun r => top_category r.normalized_scores)
    match tops with
    | [] => 0
    | t0 :: rest =>
      if (t0 :: rest).all (fun c => c = t0) then
        match (rs.filter (fun r => ¬ r.normalized_scores = [])).map
            (fun r => max_of_values r.normalized_scores) with
        | [] => 1
        | s :: ss =>
          max 0 (min 1 (1 - npStd (s :: ss)))
      else
        (((t0 :: rest).dedup.map (fun c => (t0 :: rest).count c)).foldl max 0 : ℕ) /
          ((t0 :: rest).length : ℝ)

/-- The `EnsembleResult` dataclass. -/
structure EnsembleResult where
  task : String
  final_scores : List (String × ℚ)
  model_results : List ModelResult
  agreement_score : ℝ
  method : String

/-- The body of the per-model loop of `classify_ensemble`: an unloaded
descriptor is skipped, an exception from preprocessing or `predict`
(abstracted by `rawOut d = none`) is caught and the model skipped; otherwise
the raw output is zipped onto the descriptor's category labels and
normalized. -/
def run_model (rawOut : ModelDescriptor → Option (List ℚ)) (d : ModelDescriptor) :
    Option ModelResult :=
  if ¬ d.loaded then none
  else
    match rawOut d with
    | none => none
    | some raw =>
      let scores := d.categories.zip raw
      some { model_id := d.model_id, model_name := d.name, version := d.version,
             weight := d.weight, raw_scores := scores,
             normalized_scores := normalize_scores d.model_id scores }

/-- `EnsembleClassifier.classify_ensemble`.  Preprocessing plus
`registry.predict` for one descriptor is abstracted by `rawOut`: `none`
models the exception caught and logged inside the per-model loop, `some raw`
the raw output vector. -/
noncomputable def classify_ensemble (registryModels : List (String × ModelDescriptor))
    (rawOut : ModelDescriptor → Option (List ℚ)) (task method : String) :
    EnsembleResult :=
  let models := get_models_for_task registryModels task
  if models = [] then
    { task := task, final_scores := [], model_results := [],
      agreement_score := 1, method := method }
  else
    let model_results := models.filterMap (run_model rawOut)
    if model_results = [] then
      { task := task, final_scores := [], model_results := [],
        agreement_score := 0, method := method }
    else
      let final_scores :=
        if method = "weighted_average" then weighted_average model_results
        else if method = "majority_vote" then majority_vote model_results
        else if method = "max_confidence" then max_confidence model_results
        else weighted_average model_results
      { task := task, final_scores := final_scores, model_results := model_results,
        agreement_score := compute_agreement model_results, method := method }

/- ──────────────────────────────────────────────────────────────────────
   Classification orchestrator (backend/services/ai-classifier/service.py)
   ────────────────────────────────────────────────────────────────────── -/

/-- The `ContentCategory` enumeration. -/
inductive ContentCategory where
  | SAFE
  | SUGGESTIVE
  | EXPLICIT_SEXUAL
  | VIOLENCE_MILD
  | VIOLENCE_GRAPHIC
  | DRUGS
  | CSAM_SUSPECT
  | NSFL_SUSPECT
deriving DecidableEq

/-- The `ClassificationScore` dataclass. -/
structure ClassificationScore where
  category : String
  score : ℚ
  model_name : String
  model_version : String
deriving DecidableEq

/-- The `AgeEstimation` dataclass. -/
structure AgeEstimation where
  estimated_age : ℚ
  age_range_low : ℚ
  age_range_high : ℚ
  confidence : ℚ
  is_minor_likely : Bool
  model_name : String
deriving DecidableEq

/-- The threshold settings consumed by `_determine_classification`. -/
structure OrchestratorSettings where
  csam_alert_threshold : ℚ
  confidence_threshold : ℚ
deriving DecidableEq

/-- `max(generator, default=0.0)` over a score list. -/
def maxDefaultZero (l : List ℚ) : ℚ :=
  match l with
  | [] => 0
  | x :: xs => xs.foldl max x

/-- The dict comprehension `{s.category: s.score for s in nsfw_scores}` read
through `.get(cat, 0)`: the last entry for a category wins, absent categories
score 0. -/
def scoreMapGet (scores : List ClassificationScore) (cat : String) : ℚ :=
  (scores.foldl (fun acc s => if s.category = cat then some s.score else acc)
    (none : Option ℚ)).getD 0

/-- The scene categories counted as high risk in `_compute_csam_risk`. -/
def risky_scenes : List String :=
  ["scene_indoor_bedroom", "scene_indoor_bathroom", "scene_indoor_school"]

/-- The minor-likelihood factor of `_compute_csam_risk`:
`confidence × max(0, (18-age)/18)` when a minor is likely, else 0. -/
def minor_score_of (age_estimation : Option AgeEstimation) : ℚ :=
  match age_estimation with
  | some a =>
    if a.is_minor_likely then a.confidence * max 0 ((18 - a.estimated_age) / 18)
    else 0
  | none => 0

/-- The scene-risk factor of `_compute_csam_risk`: the maximum score among the
risky scene categories, 0 when none is present. -/
def scene_risk_of (scene_scores : List ClassificationScore) : ℚ :=
  maxDefaultZero ((scene_scores.filter (fun s => s.category ∈ risky_scenes)).map (·.score))

/-- `AIClassifierService._compute_csam_risk`. -/
def compute_csam_risk (nsfw_scores : List ClassificationScore)
    (age_estimation : Option AgeEstimation)
    (scene_scores : List ClassificationScore) : ℚ :=
  let explicit_score :=
    maxDefaultZero ((nsfw_scores.filter (fun s => s.category = "explicit_sexual")).map (·.score))
  let suggestive_score :=
    maxDefaultZero ((nsfw_scores.filter (fun s => s.category = "suggestive")).map (·.score))
  let minor_score := minor_score_of age_estimation
  let scene_risk := scene_risk_of scene_scores
  let csam_score :=
    0.35 * explicit_score + 0.40 * minor_score + 0.15 * scene_risk
      + 0.10 * (suggestive_score * minor_score)
  min 1 (max 0 csam_score)

/-- `AIClassifierService._determine_classification`: the priority decision
chain from CSAM alert down to SAFE. -/
def determine_classification (settings : OrchestratorSettings)
    (nsfw_scores : List ClassificationScore) (csam_score : ℚ) : ContentCategory :=
  if csam_score ≥ settings.csam_alert_threshold then .CSAM_SUSPECT
  else if scoreMapGet nsfw_scores "explicit_sexual" > settings.confidence_threshold then
    .EXPLICIT_SEXUAL
  else if scoreMapGet nsfw_scores "violence_graphic" > settings.confidence_threshold then
    .VIOLENCE_GRAPHIC
  else if scoreMapGet nsfw_scores "violence_mild" > settings.confidence_threshold then
    .VIOLENCE_MILD
  else if scoreMapGet nsfw_scores "suggestive" > settings.confidence_threshold then
    .SUGGESTIVE
  else if scoreMapGet nsfw_scores "drugs" > settings.confidence_threshold then
    .DRUGS
  else .SAFE

/-- `AIClassifierService._should_route_to_review`. -/
def should_route_to_review (classification : ContentCategory) (csam_score : ℚ)
    (nsfw_score : ℚ) (age_est : Option AgeEstimation) : Bool :=
  if classification = ContentCategory.CSAM_SUSPECT then true
  else if csam_score > 0.5 then true
  else
    match age_est with
    | some a => a.is_minor_likely && decide (nsfw_score > 0.3)
    | none => false

/- ──────────────────────────────────────────────────────────────────────
   Concrete fixtures used by witness theorems
   ────────────────────────────────────────────────────────────────────── -/

/-- A successful model result with weight 0.6 reporting `explicit = 0.8`. -/
def demoModelA : ModelResult :=
  { model_id := "model_a", model_name := "Model A", version := "1", weight := 6/10,
    raw_scores := [("explicit", 8/10)], normalized_scores := [("explicit", 8/10)] }

/-- A successful model result with weight 0.4 reporting nothing. -/
def demoModelB : ModelResult :=
  { model_id := "model_b", model_name := "Model B", version := "1", weight := 4/10,
    raw_scores := [], normalized_scores := [] }

/-- An enabled, loaded NSFW-detection descriptor used as a registry fixture. -/
def demoDescriptor : ModelDescriptor :=
  { model_id := "m", name := "Demo", version := "v1", model_type := "onnx",
    task := "nsfw_detection", input_size := (224, 224), preprocessing := "imagenet",
    categories := ["explicit_sexual", "safe"], weight := 1, enabled := true,
    model_path := "/models/demo.onnx", source_url := "", license := "MIT",
    loaded := true, total_inferences := 4, avg_latency_ms := 10 }

/-- A hash result with a pHash and a PhotoDNA hash populated. -/
def demoHashResult : HashResult :=
  { sha256 := "s", phash := some "aa", photodna_hash := some [1, 2] }

/-- A pHash collaborator match at distance 16 with no confidence key. -/
def demoPhashMatch : DbMatch :=
  { distance := 16, database := "ncmec", classification := "csam", confidence := none }

/-- A PhotoDNA collaborator match carrying its own confidence value. -/
def demoPhotodnaMatch : DbMatch :=
  { distance := 3, database := "interpol", classification := "csam",
    confidence := some (3/4) }

/- ──────────────────────────────────────────────────────────────────────
   Helper lemmas
   ────────────────────────────────────────────────────────────────────── -/

theorem lookup_map_self (l : List String) (f : String → ℚ) (c : String)
    (hc : c ∈ l) : (l.map (fun x => (x, f x))).lookup c = some (f c) := by
  induction l with
  | nil => cases hc
  | cons a t ih =>
    rcases List.mem_cons.mp hc with h | h
    · subst h
      simp [List.lookup]
    · by_cases hca : c = a
      · subst hca
        simp [List.lookup]
      · have hba : (c == a) = false := beq_false_of_ne hca
        simp only [List.map, List.lookup, hba]
        exact ih h

theorem lookup_updateAssoc {α : Type} (l : List (String × α)) (k : String)
    (v w : α) (h : l.lookup k = some w) :
    (updateAssoc l k v).lookup k = some v := by
  induction l with
  | nil => simp [List.lookup] at h
  | cons p t ih =>
    obtain ⟨a, b⟩ := p
    by_cases hak : a = k
    · subst hak
      show List.lookup a ((if a = a then (a, v) else (a, b)) :: updateAssoc t a v) = some v
      rw [if_pos rfl]
      simp [List.lookup]
    · have hka : (k == a) = false := beq_false_of_ne (fun he => hak he.symm)
      show List.lookup k ((if a = k then (k, v) else (a, b)) :: updateAssoc t k v) = some v
      rw [if_neg hak]
      simp only [List.lookup, hka]
      apply ih
      simpa [List.lookup, hka] using h

theorem countSetBits_zero : countSetBits 0 = 0 := rfl

theorem zip_xor_self_sum (l : List Nat) :
    ((l.zip l).map (fun p => countSetBits (p.1 ^^^ p.2))).sum = 0 := by
  induction l with
  | nil => rfl
  | cons x t ih =>
    show countSetBits (x ^^^ x) +
      ((t.zip t).map (fun p => countSetBits (p.1 ^^^ p.2))).sum = 0
    rw [Nat.xor_self, countSetBits_zero, ih]

theorem zip_xor_sum_comm (l1 l2 : List Nat) :
    ((l1.zip l2).map (fun p => countSetBits (p.1 ^^^ p.2))).sum =
      ((l2.zip l1).map (fun p => countSetBits (p.1 ^^^ p.2))).sum := by
  induction l1 generalizing l2 with
  | nil => cases l2 <;> rfl
  | cons x t ih =>
    cases l2 with
    | nil => rfl
    | cons y s =>
      show countSetBits (x ^^^ y) +
          ((t.zip s).map (fun p => countSetBits (p.1 ^^^ p.2))).sum
        = countSetBits (y ^^^ x) +
          ((s.zip t).map (fun p => countSetBits (p.1 ^^^ p.2))).sum
      rw [Nat.xor_comm y x, ih s]

/- ──────────────────────────────────────────────────────────────────────
   Claims
   ────────────────────────────────────────────────────────────────────── -/

/-- C5: `compute_all_hashes` tolerates per-algorithm failure.  With all
algorithms enabled and the PhotoDNA client present: if exactly one algorithm
throws, the other two still populate their fields, the failing algorithm's
field stays absent and `errors` holds exactly one entry tagged with that
algorithm's name; when every algorithm fails, a `HashResult` is still returned
with all hash fields absent and all three errors recorded. -/
theorem compute_all_hashes_partial_tolerance :
    (∀ (e h : String) (q : Int) (pd : List Nat) (sha : String),
      compute_all_hashes ⟨true, true, true⟩ true ⟨.error e, .ok (h, q), .ok pd⟩ sha =
        { sha256 := sha, phash := none, pdq_hash := some h, pdq_quality := some q,
          photodna_hash := some pd, errors := ["phash: " ++ e] }) ∧
    (∀ (p e : String) (pd : List Nat) (sha : String),
      compute_all_hashes ⟨true, true, true⟩ true ⟨.ok p, .error e, .ok pd⟩ sha =
        { sha256 := sha, phash := some p, pdq_hash := none, pdq_quality := none,
          photodna_hash := some pd, errors := ["pdq: " ++ e] }) ∧
    (∀ (p h : String) (q : Int) (e sha : String),
      compute_all_hashes ⟨true, true, true⟩ true ⟨.ok p, .ok (h, q), .error e⟩ sha =
        { sha256 := sha, phash := some p, pdq_hash := some h, pdq_quality := some q,
          photodna_hash := none, errors := ["photodna: " ++ e] }) ∧
    (∀ (e1 e2 e3 sha : String),
      compute_all_hashes ⟨true, true, true⟩ true ⟨.error e1, .error e2, .error e3⟩ sha =
        { sha256 := sha, phash := none, pdq_hash := none, pdq_quality := none,
          photodna_hash := none,
          errors := ["phash: " ++ e1, "pdq: " ++ e2, "photodna: " ++ e3] }) := by
  refine ⟨?_, ?_, ?_, ?_⟩ <;> (intros; rfl)

/-- C6: for equal-length inputs the Hamming distance is the popcount of the
XOR of the two hash values (bytewise for the byte variant), it is zero on a
pair of equal hashes and symmetric; mismatched lengths yield the raised
`ValueError` (the spec's ValidationError) for both the hex and the byte
variant. -/
theorem hamming_distance_properties :
    (∀ (h1 h2 : String) (v1 v2 : Nat), h1.length = h2.length →
      parseHex h1 = some v1 → parseHex h2 = some v2 →
      hamming_distance_hex h1 h2 = .ok (countSetBits (v1 ^^^ v2))) ∧
    (∀ (h : String) (v : Nat), parseHex h = some v →
      hamming_distance_hex h h = .ok 0) ∧
    (∀ h1 h2 : String, hamming_distance_hex h1 h2 = hamming_distance_hex h2 h1) ∧
    (∀ h1 h2 : String, h1.length ≠ h2.length →
      hamming_distance_hex h1 h2 = .error "Hash lengths must match") ∧
    (∀ b1 b2 : List Nat, b1.length = b2.length →
      hamming_distance_bytes b1 b2 =
        .ok (((b1.zip b2).map (fun p => countSetBits (p.1 ^^^ p.2))).sum)) ∧
    (∀ b : List Nat, hamming_distance_bytes b b = .ok 0) ∧
    (∀ b1 b2 : List Nat, hamming_distance_bytes b1 b2 = hamming_distance_bytes b2 b1) ∧
    (∀ b1 b2 : List Nat, b1.length ≠ b2.length →
      hamming_distance_bytes b1 b2 = .error "Hash lengths must match") := by
  refine ⟨?_, ?_, ?_, ?_, ?_, ?_, ?_, ?_⟩
  · intro h1 h2 v1 v2 hlen hp1 hp2
    simp [hamming_distance_hex, hlen, hp1, hp2]
  · intro h v hp
    simp [hamming_distance_hex, hp, Nat.xor_self, countSetBits_zero]
  · intro h1 h2
    unfold hamming_distance_hex
    by_cases hlen : h1.length = h2.length
    · simp only [hlen, ne_eq, not_true_eq_false, if_false, ite_false]
      cases hp1 : parseHex h1 <;> cases hp2 : parseHex h2 <;> simp [Nat.xor_comm]
    · have hlen' : h2.length ≠ h1.length := fun he => hlen he.symm
      simp [hlen, hlen']
  · intro h1 h2 hlen
    simp [hamming_distance_hex, hlen]
  · intro b1 b2 hlen
    simp [hamming_distance_bytes, hlen]
  · intro b
    simp [hamming_distance_bytes, zip_xor_self_sum]
  · intro b1 b2
    unfold hamming_distance_bytes
    by_cases hlen : b1.length = b2.length
    · rw [if_neg (fun hn => hn hlen), if_neg (fun hn => hn hlen.symm)]
      exact congrArg Except.ok (zip_xor_sum_comm b1 b2)
    · have hlen' : b2.length ≠ b1.length := fun he => hlen he.symm
      simp [hlen, hlen']
  · intro b1 b2 hlen
    simp [hamming_distance_bytes, hlen]

theorem hamming_distance_properties_witness :
    hamming_distance_hex "a" "b" = .ok (countSetBits (10 ^^^ 11)) ∧
    hamming_distance_hex "ff" "ff" = .ok 0 ∧
    hamming_distance_hex "ab" "f" = .error "Hash lengths must match" ∧
    hamming_distance_bytes [1, 2] [2, 2] =
      .ok ((([1, 2].zip [2, 2]).map (fun p => countSetBits (p.1 ^^^ p.2))).sum) ∧
    hamming_distance_bytes [1] [2, 3] = .error "Hash lengths must match" :=
  ⟨hamming_distance_properties.1 "a" "b" 10 11 rfl (by decide) (by decide),
   hamming_distance_properties.2.1 "ff" 255 (by decide),
   hamming_distance_properties.2.2.2.1 "ab" "f" (by decide),
   hamming_distance_properties.2.2.2.2.1 [1, 2] [2, 2] rfl,
   hamming_distance_properties.2.2.2.2.2.2.2 [1] [2, 3] (by decide)⟩

/-- C10: `health_check` on an unregistered model id returns the
`{"model_id": id, "status": "unknown"}` record instead of raising; on a
registered id it returns the full record carrying the descriptor's loaded and
enabled flags, its total inference count and its (rounded) average latency. -/
theorem health_check_spec :
    (∀ (models : List (String × ModelDescriptor)) (id : String),
      models.lookup id = none → health_check models id = .unknown id) ∧
    (∀ (models : List (String × ModelDescriptor)) (id : String) (d : ModelDescriptor),
      models.lookup id = some d →
      health_check models id =
        .healthy id d.name d.loaded d.enabled d.total_inferences
          (pyRound1 d.avg_latency_ms)) := by
  constructor
  · intro models id h
    simp [health_check, h]
  · intro models id d h
    simp [health_check, h]

theorem health_check_spec_witness :
    health_check [] "ghost" = .unknown "ghost" ∧
    health_check [("m", demoDescriptor)] "m" =
      .healthy "m" demoDescriptor.name demoDescriptor.loaded demoDescriptor.enabled
        demoDescriptor.total_inferences (pyRound1 demoDescriptor.avg_latency_ms) :=
  ⟨health_check_spec.1 [] "ghost" rfl,
   health_check_spec.2 [("m", demoDescriptor)] "m" demoDescriptor rfl⟩

/-- C1: in `weighted_average` aggregation over a non-empty list of successful
model results, the score of each category present in any model's normalized
output is the sum over all models of normalized score times weight, divided by
the sum of the weights of every successful model — a model that did not report
the category contributes 0 to the numerator while its weight still appears in
the denominator.  In particular, weights 0.6/0.4 with model A reporting
`explicit = 0.8` and model B reporting nothing gives `score(explicit) = 0.48`. -/
theorem weighted_average_dilution :
    (∀ (rs : List ModelResult) (cat : String), rs ≠ [] → total_weight rs > 0 →
      cat ∈ all_categories rs →
      (weighted_average rs).lookup cat =
        some ((rs.map (fun r => getScore r.normalized_scores cat * r.weight)).sum /
          (rs.map (·.weight)).sum)) ∧
    (weighted_average [demoModelA, demoModelB]).lookup "explicit" = some (48/100) := by
  constructor
  · intro rs cat hne hw hc
    unfold weighted_average
    rw [lookup_map_self _ _ _ hc, if_pos hw]
    rfl
  · norm_num [demoModelA, demoModelB, weighted_average, all_categories, total_weight,
      weighted_sum, getScore, List.dedup, List.lookup]

theorem weighted_average_dilution_witness :
    (weighted_average [demoModelA, demoModelB]).lookup "explicit" =
      some (([demoModelA, demoModelB].map
          (fun r => getScore r.normalized_scores "explicit" * r.weight)).sum /
        ([demoModelA, demoModelB].map (·.weight)).sum) :=
  weighted_average_dilution.1 [demoModelA, demoModelB] "explicit" (by simp)
    (by norm_num [total_weight, demoModelA, demoModelB])
    (by decide)

/-- C3: the composite CSAM risk score is
`clamp(0.35·explicit + 0.40·minor + 0.15·scene_risk + 0.10·(suggestive·minor), 0, 1)`
with `minor = confidence·max(0,(18-age)/18)` when a minor is likely (else 0)
and `scene_risk` the maximum score among the risky scene categories; the
quoted instance (explicit 1.0, age 10, confidence 1.0, minor likely, no scene
or suggestive signal) evaluates to 19/36 ≈ 0.5278. -/
theorem compute_csam_risk_formula :
    (∀ (nsfw : List ClassificationScore) (age : Option AgeEstimation)
        (scene : List ClassificationScore),
      compute_csam_risk nsfw age scene =
        min 1 (max 0
          (0.35 * maxDefaultZero
              ((nsfw.filter (fun s => s.category = "explicit_sexual")).map (·.score))
            + 0.40 * minor_score_of age
            + 0.15 * scene_risk_of scene
            + 0.10 * (maxDefaultZero
                ((nsfw.filter (fun s => s.category = "suggestive")).map (·.score))
              * minor_score_of age)))) ∧
    compute_csam_risk
      [{ category := "explicit_sexual", score := 1, model_name := "nsfw_detector",
         model_version := "v3" }]
      (some { estimated_age := 10, age_range_low := 8, age_range_high := 12,
              confidence := 1, is_minor_likely := true, model_name := "age_estimator_v2" })
      [] = 19/36 := by
  constructor
  · intro nsfw age scene
    rfl
  · norm_num +decide [compute_csam_risk, minor_score_of, scene_risk_of, maxDefaultZero,
      risky_scenes, List.filter]

/-- C2: the primary classification evaluates its conditions in priority order
with the first match winning: CSAM alert, then explicit, graphic violence,
mild violence, suggestive, drugs, and SAFE as the fallback; with
`csam_score = 0.90 ≥ 0.85` and `explicit_sexual = 0.95 > 0.7` the result is
CSAM_SUSPECT, not EXPLICIT_SEXUAL. -/
theorem determine_classification_priority :
    (∀ (s : OrchestratorSettings) (nsfw : List ClassificationScore) (csam : ℚ),
      (determine_classification s nsfw csam = ContentCategory.CSAM_SUSPECT ↔
        csam ≥ s.csam_alert_threshold) ∧
      (determine_classification s nsfw csam = ContentCategory.EXPLICIT_SEXUAL ↔
        ¬ csam ≥ s.csam_alert_threshold ∧
          scoreMapGet nsfw "explicit_sexual" > s.confidence_threshold) ∧
      (determine_classification s nsfw csam = ContentCategory.VIOLENCE_GRAPHIC ↔
        ¬ csam ≥ s.csam_alert_threshold ∧
          ¬ scoreMapGet nsfw "explicit_sexual" > s.confidence_threshold ∧
          scoreMapGet nsfw "violence_graphic" > s.confidence_threshold) ∧
      (determine_classification s nsfw csam = ContentCategory.VIOLENCE_MILD ↔
        ¬ csam ≥ s.csam_alert_threshold ∧
          ¬ scoreMapGet nsfw "explicit_sexual" > s.confidence_threshold ∧
          ¬ scoreMapGet nsfw "violence_graphic" > s.confidence_threshold ∧
          scoreMapGet nsfw "violence_mild" > s.confidence_threshold) ∧
      (determine_classification s nsfw csam = ContentCategory.SUGGESTIVE ↔
        ¬ csam ≥ s.csam_alert_threshold ∧
          ¬ scoreMapGet nsfw "explicit_sexual" > s.confidence_threshold ∧
          ¬ scoreMapGet nsfw "violence_graphic" > s.confidence_threshold ∧
          ¬ scoreMapGet nsfw "violence_mild" > s.confidence_threshold ∧
          scoreMapGet nsfw "suggestive" > s.confidence_threshold) ∧
      (determine_classification s nsfw csam = ContentCategory.DRUGS ↔
        ¬ csam ≥ s.csam_alert_threshold ∧
          ¬ scoreMapGet nsfw "explicit_sexual" > s.confidence_threshold ∧
          ¬ scoreMapGet nsfw "violence_graphic" > s.confidence_threshold ∧
          ¬ scoreMapGet nsfw "violence_mild" > s.confidence_threshold ∧
          ¬ scoreMapGet nsfw "suggestive" > s.confidence_threshold ∧
          scoreMapGet nsfw "drugs" > s.confidence_threshold) ∧
      (determine_classification s nsfw csam = ContentCategory.SAFE ↔
        ¬ csam ≥ s.csam_alert_threshold ∧
          ¬ scoreMapGet nsfw "explicit_sexual" > s.confidence_threshold ∧
          ¬ scoreMapGet nsfw "violence_graphic" > s.confidence_threshold ∧
          ¬ scoreMapGet nsfw "violence_mild" > s.confidence_threshold ∧
          ¬ scoreMapGet nsfw "suggestive" > s.confidence_threshold ∧
          ¬ scoreMapGet nsfw "drugs" > s.confidence_threshold)) ∧
    determine_classification { csam_alert_threshold := 85/100, confidence_threshold := 7/10 }
      [{ category := "explicit_sexual", score := 95/100, model_name := "nsfw_detector",
         model_version := "v3" }]
      (90/100) = ContentCategory.CSAM_SUSPECT := by
  constructor
  · intro s nsfw csam
    unfold determine_classification
    split_ifs with h1 h2 h3 h4 h5 h6 <;> simp_all
  · norm_num [determine_classification]

/-- C8: the review routing flag is true exactly when the primary
classification is CSAM_SUSPECT, or the CSAM score exceeds 0.5, or a likely
minor was detected together with an NSFW score above 0.3; in particular a
SAFE classification with `csam_score = 0.51` and no likely minor is still
routed to review. -/
theorem should_route_to_review_iff :
    (∀ (c : ContentCategory) (csam nsfw : ℚ) (age : Option AgeEstimation),
      should_route_to_review c csam nsfw age = true ↔
        c = ContentCategory.CSAM_SUSPECT ∨ csam > 0.5 ∨
          ∃ a, age = some a ∧ a.is_minor_likely = true ∧ nsfw > 0.3) ∧
    should_route_to_review ContentCategory.SAFE (51/100) 0
      (some { estimated_age := 25, age_range_low := 20, age_range_high := 30,
              confidence := 1, is_minor_likely := false,
              model_name := "age_estimator_v2" }) = true := by
  constructor
  · intro c csam nsfw age
    unfold should_route_to_review
    split_ifs with h1 h2
    · simp [h1]
    · simp [h2]
    · cases age with
      | none => simp [h1, h2]
      | some a => simp [h1, h2, Bool.and_eq_true, decide_eq_true_iff]
  · norm_num [should_route_to_review]

/-- C4: `classify_ensemble` distinguishes its two empty-result paths — a task
with zero enabled models yields empty final scores with agreement 1.0, while
a task with enabled models where every model invocation fails yields empty
final scores with agreement 0.0. -/
theorem classify_ensemble_empty_paths :
    (∀ (st : List (String × ModelDescriptor)) (rawOut : ModelDescriptor → Option (List ℚ))
        (task method : String),
      get_models_for_task st task = [] →
      (classify_ensemble st rawOut task method).final_scores = [] ∧
      (classify_ensemble st rawOut task method).agreement_score = 1) ∧
    (∀ (st : List (String × ModelDescriptor)) (rawOut : ModelDescriptor → Option (List ℚ))
        (task method : String),
      get_models_for_task st task ≠ [] →
      (∀ d ∈ get_models_for_task st task, rawOut d = none) →
      (classify_ensemble st rawOut task method).final_scores = [] ∧
      (classify_ensemble st rawOut task method).agreement_score = 0) := by
  constructor
  · intro st rawOut task method h
    constructor <;> simp [classify_ensemble, h]
  · intro st rawOut task method hne hfail
    have hres : (get_models_for_task st task).filterMap (run_model rawOut) = [] := by
      rw [List.filterMap_eq_nil_iff]
      intro d hd
      unfold run_model
      rw [hfail d hd]
      by_cases hl : d.loaded <;> simp [hl]
    constructor <;> simp [classify_ensemble, hne, hres]

theorem classify_ensemble_empty_paths_witness :
    ((classify_ensemble [] (fun _ => none) "nsfw_detection"
        "weighted_average").final_scores = [] ∧
     (classify_ensemble [] (fun _ => none) "nsfw_detection"
        "weighted_average").agreement_score = 1) ∧
    ((classify_ensemble [("m", demoDescriptor)] (fun _ => none) "nsfw_detection"
        "weighted_average").final_scores = [] ∧
     (classify_ensemble [("m", demoDescriptor)] (fun _ => none) "nsfw_detection"
        "weighted_average").agreement_score = 0) :=
  ⟨classify_ensemble_empty_paths.1 [] (fun _ => none) "nsfw_detection"
      "weighted_average" rfl,
   classify_ensemble_empty_paths.2 [("m", demoDescriptor)] (fun _ => none)
      "nsfw_detection" "weighted_average"
      (by simp [get_models_for_task, demoDescriptor]) (fun d _ => rfl)⟩

/-- C7: a successful `predict` increments the model's inference counter and
updates its average latency by the running-mean formula
`new_avg = (old_avg*(n-1) + elapsed)/n` with `n` the new count; a session
failure propagates as an error without producing any updated state; and
calling `predict` on a model without a loaded session is an error rather than
a silent no-op. -/
theorem predict_stats :
    (∀ (st : RegistryState) (id : String) (out : List ℚ) (elapsed : ℚ) (now : Nat)
        (d : ModelDescriptor),
      st.sessions.contains id = true →
      st.models.lookup id = some d →
      d.model_type = "onnx" →
      ∃ st', predict st id (.ok out) elapsed now = .ok (out, st') ∧
        st'.sessions = st.sessions ∧
        st'.models.lookup id = some
          { d with total_inferences := d.total_inferences + 1,
                   avg_latency_ms :=
                     (d.avg_latency_ms * (((d.total_inferences + 1 : ℕ) : ℚ) - 1)
                       + elapsed) / ((d.total_inferences + 1 : ℕ) : ℚ),
                   last_inference := some now }) ∧
    (∀ (st : RegistryState) (id : String) (e : String) (elapsed : ℚ) (now : Nat)
        (d : ModelDescriptor),
      st.sessions.contains id = true →
      st.models.lookup id = some d →
      d.model_type = "onnx" →
      predict st id (.error e) elapsed now = .error e) ∧
    (∀ (st : RegistryState) (id : String) (r : Except String (List ℚ))
        (elapsed : ℚ) (now : Nat),
      st.sessions.contains id = false →
      predict st id r elapsed now = .error ("Model " ++ id ++ " is not loaded")) := by
  refine ⟨?_, ?_, ?_⟩
  · intro st id out elapsed now d hs hd ht
    have hs' : id ∈ st.sessions := by simpa using hs
    refine ⟨RegistryState.mk (updateAssoc st.models id
      { d with total_inferences := d.total_inferences + 1,
               avg_latency_ms :=
                 (d.avg_latency_ms * (((d.total_inferences + 1 : ℕ) : ℚ) - 1)
                   + elapsed) / ((d.total_inferences + 1 : ℕ) : ℚ),
               last_inference := some now }) st.sessions, ?_, rfl, ?_⟩
    · simp [predict, hs', hd, ht]
    · exact lookup_updateAssoc st.models id _ d hd
  · intro st id e elapsed now d hs hd ht
    have hs' : id ∈ st.sessions := by simpa using hs
    simp [predict, hs', hd, ht]
  · intro st id r elapsed now hns
    have hns' : id ∉ st.sessions := by simpa using hns
    simp [predict, hns']

theorem predict_stats_witness :
    (∃ st', predict ⟨[("m", demoDescriptor)], ["m"]⟩ "m" (.ok [1]) 20 5 =
        .ok ([1], st') ∧
      st'.sessions = (⟨[("m", demoDescriptor)], ["m"]⟩ : RegistryState).sessions ∧
      st'.models.lookup "m" = some
        { demoDescriptor with
            total_inferences := demoDescriptor.total_inferences + 1,
            avg_latency_ms :=
              (demoDescriptor.avg_latency_ms *
                  (((demoDescriptor.total_inferences + 1 : ℕ) : ℚ) - 1) + 20) /
                ((demoDescriptor.total_inferences + 1 : ℕ) : ℚ),
            last_inference := some 5 }) ∧
    predict ⟨[("m", demoDescriptor)], ["m"]⟩ "m" (.error "session crashed") 20 5 =
      .error "session crashed" ∧
    predict ⟨[], []⟩ "m" (.ok [1]) 20 5 = .error ("Model " ++ "m" ++ " is not loaded") :=
  ⟨predict_stats.1 ⟨[("m", demoDescriptor)], ["m"]⟩ "m" [1] 20 5 demoDescriptor
      rfl rfl rfl,
   predict_stats.2.1 ⟨[("m", demoDescriptor)], ["m"]⟩ "m" "session crashed" 20 5
      demoDescriptor rfl rfl rfl,
   predict_stats.2.2 ⟨[], []⟩ "m" (.ok [1]) 20 5 rfl⟩

/-- C9: every pHash match returned by `search_known_databases` carries
confidence `1 - distance/64`, every PDQ match carries `1 - distance/256`, and
every PhotoDNA match carries the confidence value supplied by the hash-index
collaborator directly (when the collaborator supplies one). -/
theorem search_confidence_formulas :
    ∀ (hr : HashResult) (phash_db pdq_db photodna_db : List DbMatch),
      (∀ m ∈ photodna_db, m.confidence ≠ none) →
      ∀ sm ∈ search_known_databases hr phash_db pdq_db photodna_db,
        (sm.hash_type = "phash" → sm.confidence = 1 - (sm.distance : ℚ) / 64) ∧
        (sm.hash_type = "pdq" → sm.confidence = 1 - (sm.distance : ℚ) / 256) ∧
        (sm.hash_type = "photodna" → ∃ m ∈ photodna_db,
          m.distance = sm.distance ∧ m.confidence = some sm.confidence) := by
  intro hr phash_db pdq_db photodna_db hconf sm hsm
  simp only [search_known_databases, List.mem_append] at hsm
  rcases hsm with (hph | hpq) | hpd
  · cases hp : hr.phash with
    | none => simp [phashMatches, hp] at hph
    | some h =>
      by_cases he : h.isEmpty = true
      · simp [phashMatches, hp, he] at hph
      · simp only [phashMatches, hp, if_neg he] at hph
        obtain ⟨m, hm, rfl⟩ := List.mem_map.mp hph
        exact ⟨fun _ => rfl, fun hc => by simp at hc, fun hc => by simp at hc⟩
  · cases hp : hr.pdq_hash with
    | none => simp [pdqMatches, hp] at hpq
    | some h =>
      by_cases he : h.isEmpty = true
      · simp [pdqMatches, hp, he] at hpq
      · simp only [pdqMatches, hp, if_neg he] at hpq
        obtain ⟨m, hm, rfl⟩ := List.mem_map.mp hpq
        exact ⟨fun hc => by simp at hc, fun _ => rfl, fun hc => by simp at hc⟩
  · cases hp : hr.photodna_hash with
    | none => simp [photodnaMatches, hp] at hpd
    | some h =>
      by_cases he : h.isEmpty = true
      · simp [photodnaMatches, hp, he] at hpd
      · simp only [photodnaMatches, hp, if_neg he] at hpd
        obtain ⟨m, hm, rfl⟩ := List.mem_map.mp hpd
        refine ⟨fun hc => by simp at hc, fun hc => by simp at hc,
          fun _ => ⟨m, hm, rfl, ?_⟩⟩
        obtain ⟨c, hc⟩ := Option.ne_none_iff_exists'.mp (hconf m hm)
        rw [hc]
        simp

theorem search_confidence_formulas_witness :
    (("phash" : String) = "phash" →
      (1 - ((16 : ℕ) : ℚ) / 64) = 1 - (((16 : ℕ) : ℚ)) / 64) ∧
    (("phash" : String) = "pdq" →
      (1 - ((16 : ℕ) : ℚ) / 64) = 1 - (((16 : ℕ) : ℚ)) / 256) ∧
    (("phash" : String) = "photodna" → ∃ m ∈ [demoPhotodnaMatch],
      m.distance = (16 : ℕ) ∧ m.confidence = some (1 - ((16 : ℕ) : ℚ) / 64)) := by
  have h := search_confidence_formulas demoHashResult [demoPhashMatch] []
    [demoPhotodnaMatch] (by simp [demoPhotodnaMatch])
    { sha256 := "s", hash_type := "phash", distance := 16,
      matched_database := "ncmec", classification := "csam",
      confidence := 1 - ((16 : ℕ) : ℚ) / 64 }
    (by
      simp [search_known_databases, phashMatches, pdqMatches, photodnaMatches,
        demoHashResult, demoPhashMatch, demoPhotodnaMatch]
      decide)
  exact h

end MaryPoppins
